import Mathlib

/-!
Verification of the resilient real-time data client of `poly-sdk`.

The repository contains two drafts of the same component:
* `src/unnamed/part_001` — the variant with a liveness monitor (ping interval,
  pong timeout, reconnect timer); modelled below as namespace `Live`.
* `src/src/clients/ws-client.ts` — the variant without a liveness monitor
  (a `reconnecting` boolean, a `manuallyClosed` flag); modelled below as
  namespace `Plain`.

The embedding is a small-step event semantics: each client method becomes a
state-transformer, and an event type drives socket callbacks, timer firings
and owner calls.  JavaScript timers are modelled by a multiset of armed,
uncancelled callbacks (id plus deadline) next to the handle fields the class
stores; overwriting a handle field does NOT cancel the previously armed
callback, exactly as in the source.  `JSON.parse` is the runtime's, external
to the repository, so it is a parameter of the configuration; `JSON.stringify`
is fully deterministic and is implemented.
-/

namespace WsSpec

/-- Connection status enum from `model.ts` (as used by both variants). -/
inductive ConnectionStatus where
  | CONNECTING
  | CONNECTED
  | DISCONNECTED
deriving DecidableEq

/-- WebSocket ready states of the underlying transport. -/
inductive Ready where
  | CONNECTING
  | OPEN
  | CLOSING
  | CLOSED
deriving DecidableEq

/-- JSON values: the payloads flowing through subscribe/unsubscribe and the
message dispatcher. -/
inductive Json where
  | null
  | bool (b : Bool)
  | num (n : Int)
  | str (s : String)
  | arr (elems : List Json)
  | obj (fields : List (String × Json))

mutual

/-- `JSON.stringify` on the modelled JSON values (minimal escaping; the
frames in this development contain no characters needing escapes). -/
def stringify : Json → String
  | .null => "null"
  | .bool b => if b then "true" else "false"
  | .num n => toString n
  | .str s => "\"" ++ s ++ "\""
  | .arr l => "[" ++ stringifyArr l ++ "]"
  | .obj l => "\x7b" ++ stringifyObj l ++ "\x7d"

def stringifyArr : List Json → String
  | [] => ""
  | [j] => stringify j
  | j :: js => stringify j ++ "," ++ stringifyArr js

def stringifyObj : List (String × Json) → String
  | [] => ""
  | [kv] => "\"" ++ kv.1 ++ "\":" ++ stringify kv.2
  | kv :: kvs => "\"" ++ kv.1 ++ "\":" ++ stringify kv.2 ++ "," ++ stringifyObj kvs

end

/-- `hay.includes(needle)` of JavaScript strings. -/
def strContains (hay needle : String) : Bool :=
  hay.toList.tails.any (fun t => needle.toList.isPrefixOf t)

/-- The object literal spread of both variants:
`JSON.parse`-level view of `\x7b action: act, ...msg \x7d`.  The `action`
property sits first; if `msg` itself carries an `action` key, the spread
overwrites the injected value while the position stays first, and the key is
not repeated. -/
def envelope (act : String) (m : List (String × Json)) : Json :=
  Json.obj (("action", (m.lookup "action").getD (Json.str act)) ::
    m.filter (fun kv => kv.1 != "action"))

/-- `args.host || DEFAULT_HOST` of part_001 (a JS `||`: the empty string is
falsy and falls back to the default). -/
def resolveHost (arg : Option String) : String :=
  match arg with
  | none => "wss://ws-live-data.polymarket.com"
  | some h => if h = "" then "wss://ws-live-data.polymarket.com" else h

/-- `args.pingInterval || DEFAULT_PING_INTERVAL` of part_001 (a JS `||`:
`0` is falsy and falls back to `5000`). -/
def resolvePingInterval (arg : Option Nat) : Nat :=
  match arg with
  | none => 5000
  | some n => if n = 0 then 5000 else n

/-- `args.autoReconnect !== undefined ? args.autoReconnect : true` of
part_001 (an explicit `false` is honoured). -/
def resolveAutoReconnect (arg : Option Bool) : Bool :=
  arg.getD true

namespace Live

/-- Immutable configuration of the part_001 client: the readonly fields set
by the constructor, plus the runtime's `JSON.parse` as an external
parameter. -/
structure Cfg where
  host : String
  pingInterval : Nat
  parse : String → Option Json

/-- The constructor of part_001 (lines 30-37). -/
def mkCfg (host : Option String) (pingInterval : Option Nat)
    (parse : String → Option Json) : Cfg :=
  { host := resolveHost host
    pingInterval := resolvePingInterval pingInterval
    parse := parse }

/-- The current socket: part_001 fully detaches a socket (handler slots
nulled) before dropping it in `cleanupWS`, so a dropped socket can deliver no
observable event and only the current one is modelled. -/
structure Sock where
  ready : Ready
deriving DecidableEq

/-- Mutable state of the part_001 client, together with the observable
output traces (status notifications, frames sent, messages delivered) and
the armed-timer multisets of the JS runtime. -/
structure State where
  ws : Option Sock := none
  pingTimer : Option Nat := none
  pingDue : Option Nat := none
  pongTimeout : Option Nat := none
  reconnectTimer : Option Nat := none
  autoReconnect : Bool := true
  now : Nat := 0
  nextId : Nat := 0
  pendingPong : List (Nat × Nat) := []
  pendingRec : List (Nat × Nat) := []
  statusTrace : List ConnectionStatus := []
  sent : List String := []
  delivered : List Json := []
  parseErrors : Nat := 0
  warnings : Nat := 0
  forcedCloses : Nat := 0
  connectCbs : Nat := 0

/-- Fresh instance right after the constructor ran. -/
def init (autoReconnect : Option Bool) : State :=
  { autoReconnect := resolveAutoReconnect autoReconnect }

/-- `notifyStatusChange` (lines 191-193). -/
def notifyStatusChange (st : ConnectionStatus) (s : State) : State :=
  { s with statusTrace := s.statusTrace ++ [st] }

/-- `clearPongTimeout` (lines 131-136): cancels the callback the handle
field refers to — and only that one. -/
def clearPongTimeout (s : State) : State :=
  match s.pongTimeout with
  | some h =>
      { s with pendingPong := s.pendingPong.filter (fun e => e.1 != h)
               pongTimeout := none }
  | none => s

/-- `stopPinging` (lines 123-129). -/
def stopPinging (s : State) : State :=
  clearPongTimeout { s with pingTimer := none, pingDue := none }

/-- `startPinging` (lines 110-121): stop first, then arm the interval. -/
def startPinging (c : Cfg) (s : State) : State :=
  let s := stopPinging s
  { s with pingTimer := some s.nextId
           pingDue := some (s.now + c.pingInterval)
           nextId := s.nextId + 1 }

/-- `clearTimers` (lines 146-151): cancels the reconnect timer only. -/
def clearTimers (s : State) : State :=
  match s.reconnectTimer with
  | some h =>
      { s with pendingRec := s.pendingRec.filter (fun e => e.1 != h)
               reconnectTimer := none }
  | none => s

/-- `cleanupWS` (lines 153-165): null all handler slots, close if not
already closed, drop the reference.  A detached socket can deliver nothing
observable, so it simply disappears from the state. -/
def cleanupWS (s : State) : State :=
  { s with ws := none }

/-- `scheduleReconnect` (lines 138-144): single-flight guarded on the
handle field. -/
def scheduleReconnect (s : State) : State :=
  match s.reconnectTimer with
  | some _ => s
  | none =>
      { s with reconnectTimer := some s.nextId
               pendingRec := s.pendingRec ++ [(s.nextId, s.now + 3000)]
               nextId := s.nextId + 1 }

/-- `connect` (lines 39-60), success branch of the `try`. -/
def connect (s : State) : State :=
  let s := clearTimers s
  let s := cleanupWS s
  let s := notifyStatusChange .CONNECTING s
  { s with ws := some ⟨.CONNECTING⟩ }

/-- `connect` when `new WebSocket(...)` throws (the `catch` branch, lines
55-58): no socket, schedule a reconnect. -/
def connectFail (s : State) : State :=
  let s := clearTimers s
  let s := cleanupWS s
  let s := notifyStatusChange .CONNECTING s
  scheduleReconnect s

/-- `handleOpen` (lines 62-73); the socket was already moved to OPEN by the
event delivery. -/
def handleOpen (c : Cfg) (s : State) : State :=
  let s := notifyStatusChange .CONNECTED s
  let s := startPinging c s
  { s with connectCbs := s.connectCbs + 1 }

/-- `handleMessage` (lines 75-92): empty frames ignored; the literal pong
token consumed by `clearPongTimeout`; anything else goes through
`JSON.parse`, delivering on success and logging on failure. -/
def handleMessage (c : Cfg) (d : String) (s : State) : State :=
  if d = "" then s
  else if d = "pong" then clearPongTimeout s
  else
    match c.parse d with
    | some j => { s with delivered := s.delivered ++ [j] }
    | none => { s with parseErrors := s.parseErrors + 1 }

/-- `handleClose` (lines 99-108). -/
def handleClose (s : State) : State :=
  let s := notifyStatusChange .DISCONNECTED s
  let s := stopPinging s
  if s.autoReconnect then scheduleReconnect s else s

/-- `disconnect` (lines 183-189). -/
def disconnect (s : State) : State :=
  let s := { s with autoReconnect := false }
  let s := clearTimers s
  let s := stopPinging s
  let s := cleanupWS s
  notifyStatusChange .DISCONNECTED s

/-- `sendSafe` (lines 175-181). -/
def sendSafe (payload : Json) (s : State) : State :=
  match s.ws with
  | some k =>
      if k.ready = Ready.OPEN then
        { s with sent := s.sent ++ [stringify payload] }
      else { s with warnings := s.warnings + 1 }
  | none => { s with warnings := s.warnings + 1 }

/-- `subscribe` (lines 167-169). -/
def subscribe (m : List (String × Json)) (s : State) : State :=
  sendSafe (envelope "subscribe" m) s

/-- `unsubscribe` (lines 171-173). -/
def unsubscribe (m : List (String × Json)) (s : State) : State :=
  sendSafe (envelope "unsubscribe" m) s

/-- Body of the interval callback in `startPinging` (lines 112-120): if the
socket is open, send the literal ping and arm a pong timeout for 10000 ms,
overwriting the handle field without cancelling a previously armed one. -/
def firePingBody (s : State) : State :=
  match s.ws with
  | some k =>
      if k.ready = Ready.OPEN then
        { s with sent := s.sent ++ ["ping"]
                 pongTimeout := some s.nextId
                 pendingPong := s.pendingPong ++ [(s.nextId, s.now + 10000)]
                 nextId := s.nextId + 1 }
      else s
  | none => s

/-- Body of the pong-timeout callback (lines 115-118): terminate (or close)
the socket.  The callback does not reset the handle field. -/
def firePongBody (s : State) : State :=
  match s.ws with
  | some k =>
      if k.ready = Ready.CLOSED then s
      else { s with ws := some ⟨.CLOSING⟩, forcedCloses := s.forcedCloses + 1 }
  | none => s

/-- The socket of the current instance is open (`this.ws?.readyState ===
WebSocket.OPEN`). -/
def sockOpen (s : State) : Bool :=
  match s.ws with
  | some k => k.ready == Ready.OPEN
  | none => false

/-- Events driving the client: owner calls, socket callbacks, timer
firings, passage of time.  A timer firing is enabled only for an armed,
uncancelled callback whose deadline has passed. -/
inductive Ev where
  | connect
  | connectFail
  | disconnect
  | openEv
  | closeEv
  | errorEv
  | msgEv (data : String)
  | subscribeEv (m : List (String × Json))
  | unsubscribeEv (m : List (String × Json))
  | firePing
  | firePong (id : Nat)
  | fireRec (id : Nat)
  | elapse (d : Nat)

/-- Owner-initiated connection attempts (used to state quiescence after
`disconnect`). -/
def Ev.isConnectCall : Ev → Bool
  | .connect => true
  | .connectFail => true
  | _ => false

/-- One step of the event semantics of the part_001 client. -/
def step (c : Cfg) (s : State) : Ev → State
  | .connect => connect s
  | .connectFail => connectFail s
  | .disconnect => disconnect s
  | .openEv =>
      match s.ws with
      | some k =>
          if k.ready = Ready.CONNECTING then handleOpen c { s with ws := some ⟨.OPEN⟩ }
          else s
      | none => s
  | .closeEv =>
      match s.ws with
      | some k =>
          if k.ready = Ready.CLOSED then s
          else handleClose { s with ws := some ⟨.CLOSED⟩ }
      | none => s
  | .errorEv => s
  | .msgEv d =>
      match s.ws with
      | some k => if k.ready = Ready.OPEN then handleMessage c d s else s
      | none => s
  | .subscribeEv m => subscribe m s
  | .unsubscribeEv m => unsubscribe m s
  | .firePing =>
      match s.pingTimer, s.pingDue with
      | some _, some due =>
          if due ≤ s.now then
            firePingBody { s with pingDue := some (s.now + c.pingInterval) }
          else s
      | _, _ => s
  | .firePong id =>
      match s.pendingPong.lookup id with
      | some dl =>
          if dl ≤ s.now then
            firePongBody { s with pendingPong := s.pendingPong.filter (fun e => e.1 != id) }
          else s
      | none => s
  | .fireRec id =>
      match s.pendingRec.lookup id with
      | some dl =>
          if dl ≤ s.now then
            connect { s with pendingRec := s.pendingRec.filter (fun e => e.1 != id)
                             reconnectTimer := none }
          else s
      | none => s
  | .elapse d => { s with now := s.now + d }

/-- Run a list of events. -/
def run (c : Cfg) (s : State) (evs : List Ev) : State :=
  evs.foldl (step c) s

/-- Single-flight invariant of the reconnect scheduler: the handle field
refers to the unique armed reconnect callback, or there is none. -/
def InvRec (s : State) : Prop :=
  (s.reconnectTimer = none ∧ s.pendingRec = [])
  ∨ (∃ t dl, s.reconnectTimer = some t ∧ s.pendingRec = [(t, dl)])

theorem invRec_of_eq {s t : State} (h : InvRec s)
    (h1 : t.reconnectTimer = s.reconnectTimer) (h2 : t.pendingRec = s.pendingRec) :
    InvRec t := by
  rcases h with ⟨a, b⟩ | ⟨x, dl, a, b⟩
  · exact Or.inl ⟨h1.trans a, h2.trans b⟩
  · exact Or.inr ⟨x, dl, h1.trans a, h2.trans b⟩

theorem clearTimers_rec (s : State) (h : InvRec s) :
    (clearTimers s).reconnectTimer = none ∧ (clearTimers s).pendingRec = [] := by
  rcases h with ⟨h1, h2⟩ | ⟨t, dl, h1, h2⟩ <;> simp [clearTimers, h1, h2]

theorem clearPongTimeout_rec (s : State) :
    (clearPongTimeout s).reconnectTimer = s.reconnectTimer
    ∧ (clearPongTimeout s).pendingRec = s.pendingRec
    ∧ (clearPongTimeout s).statusTrace = s.statusTrace
    ∧ (clearPongTimeout s).ws = s.ws
    ∧ (clearPongTimeout s).pingTimer = s.pingTimer
    ∧ (clearPongTimeout s).pingDue = s.pingDue
    ∧ (clearPongTimeout s).pongTimeout = none ∨ clearPongTimeout s = s := by
  cases hp : s.pongTimeout <;> simp [clearPongTimeout, hp]

theorem stopPinging_rec (s : State) :
    (stopPinging s).reconnectTimer = s.reconnectTimer
    ∧ (stopPinging s).pendingRec = s.pendingRec := by
  unfold stopPinging
  cases hp : s.pongTimeout <;> simp [clearPongTimeout, hp]

theorem scheduleReconnect_invRec (s : State) (h : InvRec s) :
    InvRec (scheduleReconnect s) := by
  rcases h with ⟨h1, h2⟩ | ⟨t, dl, h1, h2⟩
  · exact Or.inr ⟨s.nextId, s.now + 3000, by simp [scheduleReconnect, h1, h2],
      by simp [scheduleReconnect, h1, h2]⟩
  · exact Or.inr ⟨t, dl, by simp [scheduleReconnect, h1], by simp [scheduleReconnect, h1, h2]⟩

theorem connect_invRec (s : State) (h : InvRec s) : InvRec (connect s) := by
  obtain ⟨h1, h2⟩ := clearTimers_rec s h
  exact Or.inl ⟨by simp [connect, cleanupWS, notifyStatusChange, h1],
    by simp [connect, cleanupWS, notifyStatusChange, h2]⟩

theorem connectFail_invRec (s : State) (h : InvRec s) : InvRec (connectFail s) := by
  obtain ⟨h1, h2⟩ := clearTimers_rec s h
  unfold connectFail
  apply scheduleReconnect_invRec
  exact Or.inl ⟨by simp [cleanupWS, notifyStatusChange, h1],
    by simp [cleanupWS, notifyStatusChange, h2]⟩

theorem handleOpen_rec (c : Cfg) (s : State) :
    (handleOpen c s).reconnectTimer = s.reconnectTimer
    ∧ (handleOpen c s).pendingRec = s.pendingRec := by
  unfold handleOpen startPinging stopPinging notifyStatusChange
  cases hp : s.pongTimeout <;> simp [clearPongTimeout, hp]

theorem handleClose_invRec (s : State) (h : InvRec s) : InvRec (handleClose s) := by
  unfold handleClose
  have hmid : InvRec (stopPinging (notifyStatusChange .DISCONNECTED s)) := by
    refine invRec_of_eq h ?_ ?_
    · exact (stopPinging_rec _).1.trans (by simp [notifyStatusChange])
    · exact (stopPinging_rec _).2.trans (by simp [notifyStatusChange])
  by_cases ha : (stopPinging (notifyStatusChange .DISCONNECTED s)).autoReconnect
  · simpa [ha] using scheduleReconnect_invRec _ hmid
  · simpa [ha] using hmid

theorem handleMessage_rec (c : Cfg) (d : String) (s : State) :
    (handleMessage c d s).reconnectTimer = s.reconnectTimer
    ∧ (handleMessage c d s).pendingRec = s.pendingRec := by
  unfold handleMessage
  by_cases h0 : d = ""
  · simp [h0]
  · by_cases h1 : d = "pong"
    · have := stopPinging_rec s
      simp only [h0, h1, if_false, if_true]
      cases hp : s.pongTimeout <;> simp [clearPongTimeout, hp]
    · cases hp : c.parse d <;> simp [h0, h1, hp]

theorem sendSafe_rec (p : Json) (s : State) :
    (sendSafe p s).reconnectTimer = s.reconnectTimer
    ∧ (sendSafe p s).pendingRec = s.pendingRec := by
  unfold sendSafe
  cases hw : s.ws with
  | none => simp
  | some k => by_cases hk : k.ready = Ready.OPEN <;> simp [hk]

theorem firePingBody_rec (s : State) :
    (firePingBody s).reconnectTimer = s.reconnectTimer
    ∧ (firePingBody s).pendingRec = s.pendingRec := by
  unfold firePingBody
  cases hw : s.ws with
  | none => simp
  | some k => by_cases hk : k.ready = Ready.OPEN <;> simp [hk]

theorem firePongBody_rec (s : State) :
    (firePongBody s).reconnectTimer = s.reconnectTimer
    ∧ (firePongBody s).pendingRec = s.pendingRec := by
  unfold firePongBody
  cases hw : s.ws with
  | none => simp
  | some k => by_cases hk : k.ready = Ready.CLOSED <;> simp [hk]

/-- `disconnect` leaves autoReconnect off, all three timer handles cleared,
the reconnect callback cancelled, no socket, and appends exactly one
DISCONNECTED notification. -/
theorem disconnect_spec (s : State) (h : InvRec s) :
    (disconnect s).autoReconnect = false
    ∧ (disconnect s).reconnectTimer = none
    ∧ (disconnect s).pendingRec = []
    ∧ (disconnect s).pingTimer = none
    ∧ (disconnect s).pingDue = none
    ∧ (disconnect s).pongTimeout = none
    ∧ (disconnect s).ws = none
    ∧ (disconnect s).statusTrace = s.statusTrace ++ [ConnectionStatus.DISCONNECTED] := by
  rcases h with ⟨h1, h2⟩ | ⟨t, dl, h1, h2⟩ <;>
    cases hp : s.pongTimeout <;>
      simp [disconnect, clearTimers, stopPinging, clearPongTimeout, cleanupWS,
            notifyStatusChange, h1, h2, hp]

theorem invRec_step (c : Cfg) (s : State) (e : Ev) (h : InvRec s) :
    InvRec (step c s e) := by
  cases e with
  | connect => exact connect_invRec s h
  | connectFail => exact connectFail_invRec s h
  | disconnect =>
      obtain ⟨_, h1, h2, _⟩ := disconnect_spec s h
      exact Or.inl ⟨h1, h2⟩
  | openEv =>
      cases hw : s.ws with
      | none => simpa [step, hw] using h
      | some k =>
          by_cases hk : k.ready = Ready.CONNECTING
          · have := handleOpen_rec c { s with ws := some ⟨.OPEN⟩ }
            simp only [step, hw, hk, if_true]
            exact invRec_of_eq h this.1 this.2
          · simpa [step, hw, hk] using h
  | closeEv =>
      cases hw : s.ws with
      | none => simpa [step, hw] using h
      | some k =>
          by_cases hk : k.ready = Ready.CLOSED
          · simpa [step, hw, hk] using h
          · have hmid : InvRec ({ s with ws := some ⟨.CLOSED⟩ } : State) :=
              invRec_of_eq h rfl rfl
            simpa [step, hw, hk] using handleClose_invRec _ hmid
  | errorEv => simpa [step] using h
  | msgEv d =>
      cases hw : s.ws with
      | none => simpa [step, hw] using h
      | some k =>
          by_cases hk : k.ready = Ready.OPEN
          · have := handleMessage_rec c d s
            simp only [step, hw, hk, if_true]
            exact invRec_of_eq h this.1 this.2
          · simpa [step, hw, hk] using h
  | subscribeEv m =>
      have := sendSafe_rec (envelope "subscribe" m) s
      simp only [step, subscribe]
      exact invRec_of_eq h this.1 this.2
  | unsubscribeEv m =>
      have := sendSafe_rec (envelope "unsubscribe" m) s
      simp only [step, unsubscribe]
      exact invRec_of_eq h this.1 this.2
  | firePing =>
      cases hpt : s.pingTimer with
      | none => simpa [step, hpt] using h
      | some t =>
          cases hpd : s.pingDue with
          | none => simpa [step, hpt, hpd] using h
          | some due =>
              by_cases hdue : due ≤ s.now
              · simp only [step, hpt, hpd, hdue, if_true]
                exact invRec_of_eq h (firePingBody_rec _).1 (firePingBody_rec _).2
              · simpa [step, hpt, hpd, hdue] using h
  | firePong id =>
      cases hl : s.pendingPong.lookup id with
      | none => simpa [step, hl] using h
      | some dl =>
          by_cases hdl : dl ≤ s.now
          · have := firePongBody_rec
              { s with pendingPong := s.pendingPong.filter (fun e => e.1 != id) }
            simp only [step, hl, hdl, if_true]
            exact invRec_of_eq h this.1 this.2
          · simpa [step, hl, hdl] using h
  | fireRec id =>
      rcases h with ⟨h1, h2⟩ | ⟨t, dl2, h1, h2⟩
      · have hl : s.pendingRec.lookup id = none := by simp [h2]
        simpa [step, hl] using Or.inl ⟨h1, h2⟩
      · by_cases hti : t = id
        · subst hti
          have hl : s.pendingRec.lookup t = some dl2 := by simp [h2, List.lookup]
          by_cases hdl : dl2 ≤ s.now
          · have hmid : InvRec ({ s with
                pendingRec := s.pendingRec.filter (fun e => e.1 != t)
                reconnectTimer := none } : State) := by
              refine Or.inl ⟨rfl, ?_⟩
              simp [h2]
            simpa [step, hl, hdl] using connect_invRec _ hmid
          · simpa [step, hl, hdl] using Or.inr ⟨t, dl2, h1, h2⟩
        · have hbeq : (id == t) = false := by
            simp only [beq_eq_false_iff_ne]
            exact fun hx => hti hx.symm
          have hl : s.pendingRec.lookup id = none := by simp [h2, List.lookup, hbeq]
          simpa [step, hl] using Or.inr ⟨t, dl2, h1, h2⟩
  | elapse d => exact invRec_of_eq h rfl rfl

theorem invRec_init (ar : Option Bool) : InvRec (init ar) :=
  Or.inl ⟨rfl, rfl⟩

theorem invRec_run (c : Cfg) (s : State) (evs : List Ev) (h : InvRec s) :
    InvRec (run c s evs) := by
  induction evs generalizing s with
  | nil => exact h
  | cons e es ih => exact ih (step c s e) (invRec_step c s e h)

/-- Quiescent state: no socket is attached and no timer that could reach
`connect` or emit a non-DISCONNECTED status is armed.  `disconnect` leaves
the client in this state. -/
def Quiet (s : State) : Prop :=
  s.ws = none ∧ s.pendingRec = [] ∧ s.reconnectTimer = none
  ∧ s.pingTimer = none ∧ s.pingDue = none

theorem quiet_disconnect (s : State) (h : InvRec s) : Quiet (disconnect s) := by
  obtain ⟨_, h1, h2, h3, h4, _, h6, _⟩ := disconnect_spec s h
  exact ⟨h6, h2, h1, h3, h4⟩

theorem quiet_step (c : Cfg) (s : State) (e : Ev) (hq : Quiet s)
    (he : e.isConnectCall = false) :
    Quiet (step c s e)
    ∧ ∃ l, (step c s e).statusTrace = s.statusTrace ++ l
        ∧ ∀ x ∈ l, x = ConnectionStatus.DISCONNECTED := by
  obtain ⟨hw, hpr, hrt, hpt, hpd⟩ := hq
  cases e with
  | connect => simp [Ev.isConnectCall] at he
  | connectFail => simp [Ev.isConnectCall] at he
  | disconnect =>
      have hinv : InvRec s := Or.inl ⟨hrt, hpr⟩
      obtain ⟨_, h1, h2, h3, h4, _, h6, h7⟩ := disconnect_spec s hinv
      exact ⟨⟨h6, h2, h1, h3, h4⟩, [ConnectionStatus.DISCONNECTED], h7, by simp⟩
  | openEv =>
      refine ⟨?_, [], by simp [step, hw], by simp⟩
      simp only [step, hw]
      exact ⟨hw, hpr, hrt, hpt, hpd⟩
  | closeEv =>
      refine ⟨?_, [], by simp [step, hw], by simp⟩
      simp only [step, hw]
      exact ⟨hw, hpr, hrt, hpt, hpd⟩
  | errorEv =>
      exact ⟨⟨hw, hpr, hrt, hpt, hpd⟩, [], by simp [step], by simp⟩
  | msgEv d =>
      refine ⟨?_, [], by simp [step, hw], by simp⟩
      simp only [step, hw]
      exact ⟨hw, hpr, hrt, hpt, hpd⟩
  | subscribeEv m =>
      refine ⟨?_, [], ?_, by simp⟩ <;> simp [step, subscribe, sendSafe, hw]
      exact ⟨rfl, hpr, hrt, hpt, hpd⟩
  | unsubscribeEv m =>
      refine ⟨?_, [], ?_, by simp⟩ <;> simp [step, unsubscribe, sendSafe, hw]
      exact ⟨rfl, hpr, hrt, hpt, hpd⟩
  | firePing =>
      refine ⟨?_, [], by simp [step, hpt], by simp⟩
      simp only [step, hpt]
      exact ⟨hw, hpr, hrt, hpt, hpd⟩
  | firePong id =>
      cases hl : s.pendingPong.lookup id with
      | none =>
          refine ⟨?_, [], by simp [step, hl], by simp⟩
          simp only [step, hl]
          exact ⟨hw, hpr, hrt, hpt, hpd⟩
      | some dl =>
          by_cases hdl : dl ≤ s.now
          · refine ⟨?_, [], ?_, by simp⟩ <;> simp [step, hl, hdl, firePongBody, hw]
            exact ⟨rfl, hpr, hrt, hpt, hpd⟩
          · refine ⟨?_, [], by simp [step, hl, hdl], by simp⟩
            simp only [step, hl, hdl, if_false]
            exact ⟨hw, hpr, hrt, hpt, hpd⟩
  | fireRec id =>
      have hl : s.pendingRec.lookup id = none := by simp [hpr]
      refine ⟨?_, [], by simp [step, hl], by simp⟩
      simp only [step, hl]
      exact ⟨hw, hpr, hrt, hpt, hpd⟩
  | elapse d =>
      exact ⟨⟨hw, hpr, hrt, hpt, hpd⟩, [], by simp [step], by simp⟩

theorem quiet_run (c : Cfg) (s : State) (evs : List Ev) (hq : Quiet s)
    (hevs : ∀ e ∈ evs, Ev.isConnectCall e = false) :
    Quiet (run c s evs)
    ∧ ∃ l, (run c s evs).statusTrace = s.statusTrace ++ l
        ∧ ∀ x ∈ l, x = ConnectionStatus.DISCONNECTED := by
  induction evs generalizing s with
  | nil => exact ⟨hq, [], by simp [run], by simp⟩
  | cons e es ih =>
      obtain ⟨hq1, l1, hl1, hall1⟩ := quiet_step c s e hq (hevs e (by simp))
      obtain ⟨hq2, l2, hl2, hall2⟩ :=
        ih (step c s e) hq1 (fun x hx => hevs x (by simp [hx]))
      refine ⟨hq2, l1 ++ l2, ?_, ?_⟩
      · have : run c s (e :: es) = run c (step c s e) es := rfl
        rw [this, hl2, hl1, List.append_assoc]
      · intro x hx
        rcases List.mem_append.mp hx with hx | hx
        · exact hall1 x hx
        · exact hall2 x hx

end Live

namespace Plain

/-- Immutable configuration of the ws-client.ts client (`host` is the
`args?.host ?? DEFAULT_HOST` field; `JSON.parse` is the runtime's, external
to the repository). -/
structure Cfg where
  host : String
  parse : String → Option Json

/-- The constructor of ws-client.ts (lines 30-36); `??` keeps an empty
string, unlike the `||` of the other variant. -/
def mkCfg (host : Option String) (parse : String → Option Json) : Cfg :=
  { host := host.getD "wss://ws-live-data.polymarket.com", parse := parse }

/-- Mutable state of the ws-client.ts client.  This variant never removes
the handlers it attached, so every socket it ever created stays able to run
the shared callbacks; `sockets` is the full creation history (ready states,
indexed by creation order), `cur` the index `this.ws` refers to. -/
structure State where
  sockets : List Ready := []
  cur : Option Nat := none
  autoReconnect : Bool := true
  reconnecting : Bool := false
  manuallyClosed : Bool := false
  now : Nat := 0
  nextId : Nat := 0
  pendingRec : List (Nat × Nat) := []
  statusTrace : List ConnectionStatus := []
  sent : List String := []
  delivered : List Json := []
  parseErrors : Nat := 0
  warnings : Nat := 0

/-- Fresh instance right after the constructor ran
(`args?.autoReconnect ?? true`). -/
def init (autoReconnect : Option Bool) : State :=
  { autoReconnect := autoReconnect.getD true }

/-- `notifyStatusChange` (lines 150-152). -/
def notifyStatusChange (st : ConnectionStatus) (s : State) : State :=
  { s with statusTrace := s.statusTrace ++ [st] }

/-- `connect` (lines 38-56): reset the manual-close flag; if the current
socket is already OPEN do nothing else; otherwise notify CONNECTING and
create a fresh socket (the previous one keeps its handlers). -/
def connect (s : State) : State :=
  let s := { s with manuallyClosed := false }
  match s.cur with
  | some i =>
      if s.sockets[i]? = some Ready.OPEN then s
      else
        let s := notifyStatusChange .CONNECTING s
        { s with sockets := s.sockets ++ [Ready.CONNECTING]
                 cur := some s.sockets.length }
  | none =>
      let s := notifyStatusChange .CONNECTING s
      { s with sockets := s.sockets ++ [Ready.CONNECTING]
               cur := some s.sockets.length }

/-- `onOpen` (lines 58-62). -/
def onOpen (s : State) : State :=
  notifyStatusChange .CONNECTED { s with reconnecting := false }

/-- `onMessage` (lines 64-75): frames are parsed and delivered only when
they contain the substring "payload"; everything else is silently
ignored. -/
def onMessage (c : Cfg) (d : String) (s : State) : State :=
  if d = "" then s
  else if strContains d "payload" then
    match c.parse d with
    | some j => { s with delivered := s.delivered ++ [j] }
    | none => { s with parseErrors := s.parseErrors + 1 }
  else s

/-- `onError` (lines 77-81). -/
def onError (s : State) : State :=
  { s with reconnecting := false }

/-- `scheduleReconnect` (lines 98-107), guarded on the `reconnecting`
flag. -/
def scheduleReconnect (s : State) : State :=
  if s.reconnecting then s
  else
    { s with reconnecting := true
             pendingRec := s.pendingRec ++ [(s.nextId, s.now + 3000)]
             nextId := s.nextId + 1 }

/-- `onClose` (lines 83-96): note that the `reconnecting` flag is reset
before `scheduleReconnect` runs. -/
def onClose (s : State) : State :=
  let s := notifyStatusChange .DISCONNECTED s
  let s := { s with reconnecting := false }
  if !s.autoReconnect || s.manuallyClosed then s else scheduleReconnect s

/-- `disconnect` (lines 109-116): flags only, close the socket if OPEN; no
timer is cancelled, no handler detached, no status emitted. -/
def disconnect (s : State) : State :=
  let s := { s with autoReconnect := false, manuallyClosed := true }
  match s.cur with
  | some i =>
      if s.sockets[i]? = some Ready.OPEN then
        { s with sockets := s.sockets.set i Ready.CLOSING }
      else s
  | none => s

/-- `subscribe` (lines 118-132), modelling a successful `send`. -/
def subscribe (m : List (String × Json)) (s : State) : State :=
  match s.cur with
  | some i =>
      if s.sockets[i]? = some Ready.OPEN then
        { s with sent := s.sent ++ [stringify (envelope "subscribe" m)] }
      else { s with warnings := s.warnings + 1 }
  | none => { s with warnings := s.warnings + 1 }

/-- `unsubscribe` (lines 134-148), modelling a successful `send`. -/
def unsubscribe (m : List (String × Json)) (s : State) : State :=
  match s.cur with
  | some i =>
      if s.sockets[i]? = some Ready.OPEN then
        { s with sent := s.sent ++ [stringify (envelope "unsubscribe" m)] }
      else { s with warnings := s.warnings + 1 }
  | none => { s with warnings := s.warnings + 1 }

/-- The socket of the current instance is open (`this.ws &&
this.ws.readyState === WebSocket.OPEN`). -/
def sockOpen (s : State) : Bool :=
  match s.cur with
  | some i => s.sockets[i]? == some Ready.OPEN
  | none => false

/-- Events driving the ws-client.ts client.  Socket events carry the index
of the socket that fired them: since this variant never detaches handlers,
every non-closed socket it created may still run the shared callbacks. -/
inductive Ev where
  | connect
  | disconnect
  | openEv (sid : Nat)
  | closeEv (sid : Nat)
  | errorEv (sid : Nat)
  | msgEv (sid : Nat) (data : String)
  | subscribeEv (m : List (String × Json))
  | unsubscribeEv (m : List (String × Json))
  | fireRec (id : Nat)
  | elapse (d : Nat)

/-- One step of the event semantics of the ws-client.ts client. -/
def step (c : Cfg) (s : State) : Ev → State
  | .connect => connect s
  | .disconnect => disconnect s
  | .openEv sid =>
      match s.sockets[sid]? with
      | some Ready.CONNECTING => onOpen { s with sockets := s.sockets.set sid Ready.OPEN }
      | _ => s
  | .closeEv sid =>
      match s.sockets[sid]? with
      | some Ready.CLOSED => s
      | some _ => onClose { s with sockets := s.sockets.set sid Ready.CLOSED }
      | none => s
  | .errorEv sid =>
      match s.sockets[sid]? with
      | some Ready.CLOSED => s
      | some _ => onError s
      | none => s
  | .msgEv sid d =>
      if s.sockets[sid]? = some Ready.OPEN then onMessage c d s else s
  | .subscribeEv m => subscribe m s
  | .unsubscribeEv m => unsubscribe m s
  | .fireRec id =>
      match s.pendingRec.lookup id with
      | some dl =>
          if dl ≤ s.now then
            let s := { s with pendingRec := s.pendingRec.filter (fun e => e.1 != id) }
            if s.manuallyClosed then s else connect s
          else s
      | none => s
  | .elapse d => { s with now := s.now + d }

/-- Run a list of events. -/
def run (c : Cfg) (s : State) (evs : List Ev) : State :=
  evs.foldl (step c) s

end Plain

/-- A concrete stand-in for the runtime's `JSON.parse`, sufficient to
evaluate the development's concrete frames: it recognises the frames used
in the spec's examples. -/
def parseDemo : String → Option Json :=
  fun d =>
    if d = "\x7b\"a\":1\x7d" then some (Json.obj [("a", Json.num 1)])
    else if d = "\x7b\"payload\":1\x7d" then some (Json.obj [("payload", Json.num 1)])
    else none

/-- A list of pairs without a given key looks it up to `none`. -/
theorem lookup_none_of_key_absent (k : String) (m : List (String × Json))
    (h : ∀ kv ∈ m, kv.1 ≠ k) : m.lookup k = none := by
  induction m with
  | nil => rfl
  | cons kv t ih =>
      have h1 : (k == kv.1) = false :=
        beq_eq_false_iff_ne.mpr (fun hx => (h kv (by simp)) hx.symm)
      simp only [List.lookup, h1]
      exact ih (fun x hx => h x (by simp [hx]))

/-- The spread in `subscribe`/`unsubscribe`, on a message without its own
`action` key, prepends exactly the injected pair and keeps every original
field unchanged and in order. -/
theorem envelope_of_no_action (act : String) (m : List (String × Json))
    (h : ∀ kv ∈ m, kv.1 ≠ "action") :
    envelope act m = Json.obj (("action", Json.str act) :: m) := by
  unfold envelope
  rw [lookup_none_of_key_absent "action" m h,
      List.filter_eq_self.mpr (fun kv hkv => bne_iff_ne.mpr (h kv hkv))]
  rfl

/-- Demo configuration of the liveness-monitor variant (all defaults). -/
def cfgL : Live.Cfg := Live.mkCfg none none parseDemo

/-- Demo configuration of the plain variant (all defaults). -/
def cfgP : Plain.Cfg := Plain.mkCfg none parseDemo

/-- Claim C8: after construction, a single `connect()` followed by a
successful open event produces exactly the status-callback sequence
CONNECTING then CONNECTED, each observed exactly once and in that order —
in both variants. -/
theorem claim_C8_theorem :
    (Live.run cfgL (Live.init none) [.connect, .openEv]).statusTrace
      = [ConnectionStatus.CONNECTING, ConnectionStatus.CONNECTED]
    ∧ (Plain.run cfgP (Plain.init none) [.connect, .openEv 0]).statusTrace
      = [ConnectionStatus.CONNECTING, ConnectionStatus.CONNECTED] :=
  ⟨rfl, rfl⟩

/-- Claim C9: in the liveness-monitor variant, constructing the client with
`pingInterval` equal to `0` (or leaving it undefined) silently falls back to
the 5000 ms default, while a non-zero value is honoured. -/
theorem claim_C9_theorem :
    (Live.mkCfg none (some 0) parseDemo).pingInterval = 5000
    ∧ (Live.mkCfg none none parseDemo).pingInterval = 5000
    ∧ (Live.mkCfg none (some 7000) parseDemo).pingInterval = 7000 :=
  ⟨rfl, rfl, rfl⟩

/-- Claim C10: in the variant without a liveness monitor, calling
`connect()` while the current socket is already OPEN changes nothing except
resetting the manually-closed flag to false: no CONNECTING status, no new
socket, handlers untouched. -/
theorem claim_C10_theorem (s : Plain.State) (i : Nat)
    (hc : s.cur = some i) (ho : s.sockets[i]? = some Ready.OPEN) :
    Plain.connect s = { s with manuallyClosed := false } := by
  simp [Plain.connect, hc, ho]

/-- The plain-variant state reached by a `connect()` and a successful open
event. -/
def sPlainOpen : Plain.State := Plain.run cfgP (Plain.init none) [.connect, .openEv 0]

/-- Witness for C10 at a concrete reachable state with an OPEN socket. -/
theorem claim_C10_witness :
    sPlainOpen.cur = some 0
    ∧ sPlainOpen.sockets[0]? = some Ready.OPEN
    ∧ Plain.connect sPlainOpen = { sPlainOpen with manuallyClosed := false } :=
  ⟨rfl, rfl, claim_C10_theorem sPlainOpen 0 rfl rfl⟩

/-- Claim C7: in both variants, calling `subscribe`/`unsubscribe` while the
socket is not open sends zero frames, raises nothing, reports a soft
warning, and queues nothing: the entire state is unchanged except for the
warning counter. -/
theorem claim_C7_theorem :
    (∀ (m : List (String × Json)) (s : Live.State), Live.sockOpen s = false →
        Live.subscribe m s = { s with warnings := s.warnings + 1 }
        ∧ Live.unsubscribe m s = { s with warnings := s.warnings + 1 })
    ∧ (∀ (m : List (String × Json)) (s : Plain.State), Plain.sockOpen s = false →
        Plain.subscribe m s = { s with warnings := s.warnings + 1 }
        ∧ Plain.unsubscribe m s = { s with warnings := s.warnings + 1 }) := by
  constructor
  · intro m s h
    cases hw : s.ws with
    | none =>
        exact ⟨by simp [Live.subscribe, Live.sendSafe, hw],
               by simp [Live.unsubscribe, Live.sendSafe, hw]⟩
    | some k =>
        have hk : ¬ k.ready = Ready.OPEN := by
          simpa [Live.sockOpen, hw] using h
        exact ⟨by simp [Live.subscribe, Live.sendSafe, hw, hk],
               by simp [Live.unsubscribe, Live.sendSafe, hw, hk]⟩
  · intro m s h
    cases hw : s.cur with
    | none =>
        exact ⟨by simp [Plain.subscribe, hw], by simp [Plain.unsubscribe, hw]⟩
    | some i =>
        have hk : ¬ s.sockets[i]? = some Ready.OPEN := by
          simpa [Plain.sockOpen, hw] using h
        exact ⟨by simp [Plain.subscribe, hw, hk],
               by simp [Plain.unsubscribe, hw, hk]⟩

/-- Witness for C7 at the freshly constructed states of both variants. -/
theorem claim_C7_witness :
    Live.sockOpen (Live.init none) = false
    ∧ Live.subscribe [("topic", Json.str "X")] (Live.init none)
        = { Live.init none with warnings := (Live.init none).warnings + 1 }
    ∧ Plain.sockOpen (Plain.init none) = false
    ∧ Plain.subscribe [("topic", Json.str "X")] (Plain.init none)
        = { Plain.init none with warnings := (Plain.init none).warnings + 1 } :=
  ⟨rfl, (claim_C7_theorem.1 [("topic", Json.str "X")] (Live.init none) (by rfl)).1,
   rfl, (claim_C7_theorem.2 [("topic", Json.str "X")] (Plain.init none) (by rfl)).1⟩

/-- The liveness-monitor-variant state reached by a `connect()` and a
successful open event. -/
def sLiveOpen : Live.State := Live.run cfgL (Live.init none) [.connect, .openEv]

/-- Claim C3 counterexample: in ws-client.ts the close handler resets the
single-flight flag before arming, so two close events (from the two sockets
a double `connect()` leaves attached) leave TWO reconnects pending at once,
contradicting "at every point at most one reconnect is pending". -/
theorem claim_C3_counterexample :
    (Plain.run cfgP (Plain.init none)
        [.connect, .connect, .closeEv 0, .closeEv 1]).pendingRec.length = 2 := rfl

/-- Claim C3 (amended): in the liveness-monitor variant the claim holds: at
most one reconnect is ever pending; a close event while autoReconnect is on
and none is pending schedules exactly one; and an arm request while one is
pending is a no-op.  In ws-client.ts, close events from two concurrently
live sockets can leave two reconnects pending (see the counterexample). -/
theorem claim_C3_theorem :
    (∀ (c : Live.Cfg) (ar : Option Bool) (evs : List Live.Ev),
        (Live.run c (Live.init ar) evs).pendingRec.length ≤ 1)
    ∧ (∀ (c : Live.Cfg) (s : Live.State) (k : Live.Sock), s.ws = some k →
        k.ready ≠ Ready.CLOSED → s.autoReconnect = true → s.reconnectTimer = none →
        s.pendingRec = [] → (Live.step c s Live.Ev.closeEv).pendingRec.length = 1)
    ∧ (∀ (s : Live.State) (t : Nat), s.reconnectTimer = some t →
        Live.scheduleReconnect s = s) := by
  refine ⟨?_, ?_, ?_⟩
  · intro c ar evs
    rcases Live.invRec_run c _ evs (Live.invRec_init ar) with ⟨_, h⟩ | ⟨t, dl, _, h⟩ <;>
      simp [h]
  · intro c s k hw hk ha hrt hpr
    cases hp : s.pongTimeout <;>
      simp [Live.step, hw, hk, Live.handleClose, Live.notifyStatusChange,
            Live.stopPinging, Live.clearPongTimeout, Live.scheduleReconnect,
            hp, ha, hrt, hpr]
  · intro s t h
    simp [Live.scheduleReconnect, h]

/-- Witness for C3 at concrete states: an open connected state for the
close-step part, an armed scheduler for the no-op part. -/
theorem claim_C3_witness :
    sLiveOpen.ws = some ⟨Ready.OPEN⟩
    ∧ (Live.step cfgL sLiveOpen Live.Ev.closeEv).pendingRec.length = 1
    ∧ (Live.scheduleReconnect (Live.init none)).reconnectTimer = some 0
    ∧ Live.scheduleReconnect (Live.scheduleReconnect (Live.init none))
        = Live.scheduleReconnect (Live.init none) :=
  ⟨rfl,
   claim_C3_theorem.2.1 cfgL sLiveOpen ⟨Ready.OPEN⟩ rfl (by decide) rfl rfl rfl,
   rfl,
   claim_C3_theorem.2.2 (Live.scheduleReconnect (Live.init none)) 0 rfl⟩

/-- Claim C4 counterexample: in ws-client.ts, `disconnect()` emits no
DISCONNECTED status at all (first conjunct: on a fresh client the status
trace stays empty), and it cancels no timer (second conjunct: a reconnect
armed by a prior close is still pending after `disconnect()`). -/
theorem claim_C4_counterexample :
    (Plain.run cfgP (Plain.init none) [.disconnect]).statusTrace = []
    ∧ (Plain.run cfgP (Plain.init none)
        [.connect, .closeEv 0, .disconnect]).pendingRec ≠ [] :=
  ⟨rfl, by decide⟩

/-- Claim C4 (amended): in the liveness-monitor variant `disconnect()` does
everything the claim states: autoReconnect off, every timer handle cleared
and the reconnect callback cancelled, socket detached and closed, exactly
one DISCONNECTED notification appended.  In ws-client.ts `disconnect()`
only sets the two flags and closes an OPEN socket: it emits no status and
cancels no timer, but still no automatic connection attempt can occur
afterwards, because the pending reconnect callback checks the manual-close
flag and then changes nothing observable. -/
theorem claim_C4_theorem :
    (∀ (c : Live.Cfg) (ar : Option Bool) (evs : List Live.Ev),
        (Live.disconnect (Live.run c (Live.init ar) evs)).autoReconnect = false
        ∧ (Live.disconnect (Live.run c (Live.init ar) evs)).reconnectTimer = none
        ∧ (Live.disconnect (Live.run c (Live.init ar) evs)).pendingRec = []
        ∧ (Live.disconnect (Live.run c (Live.init ar) evs)).pingTimer = none
        ∧ (Live.disconnect (Live.run c (Live.init ar) evs)).pongTimeout = none
        ∧ (Live.disconnect (Live.run c (Live.init ar) evs)).ws = none
        ∧ (Live.disconnect (Live.run c (Live.init ar) evs)).statusTrace
            = (Live.run c (Live.init ar) evs).statusTrace
              ++ [ConnectionStatus.DISCONNECTED])
    ∧ (∀ s : Plain.State,
        (Plain.disconnect s).autoReconnect = false
        ∧ (Plain.disconnect s).manuallyClosed = true
        ∧ (Plain.disconnect s).statusTrace = s.statusTrace
        ∧ (Plain.disconnect s).pendingRec = s.pendingRec)
    ∧ (∀ (c : Plain.Cfg) (s : Plain.State) (id : Nat), s.manuallyClosed = true →
        (Plain.step c s (.fireRec id)).statusTrace = s.statusTrace
        ∧ (Plain.step c s (.fireRec id)).sockets = s.sockets
        ∧ (Plain.step c s (.fireRec id)).sent = s.sent) := by
  refine ⟨?_, ?_, ?_⟩
  · intro c ar evs
    obtain ⟨h1, h2, h3, h4, _, h6, h7, h8⟩ :=
      Live.disconnect_spec (Live.run c (Live.init ar) evs)
        (Live.invRec_run c _ evs (Live.invRec_init ar))
    exact ⟨h1, h2, h3, h4, h6, h7, h8⟩
  · intro s
    unfold Plain.disconnect
    cases hc : s.cur with
    | none => simp
    | some i => by_cases ho : s.sockets[i]? = some Ready.OPEN <;> simp [ho]
  · intro c s id hm
    cases hl : s.pendingRec.lookup id with
    | none => simp [Plain.step, hl]
    | some dl =>
        by_cases hdl : dl ≤ s.now <;> simp [Plain.step, hl, hdl, hm]

/-- Witness for C4's hypothesis-bearing part: in the plain variant, after a
real `disconnect()` the pending reconnect callback fires without any
observable effect. -/
theorem claim_C4_witness :
    (Plain.disconnect sPlainOpen).manuallyClosed = true
    ∧ (Plain.step cfgP (Plain.disconnect sPlainOpen) (.fireRec 0)).statusTrace
        = (Plain.disconnect sPlainOpen).statusTrace :=
  ⟨rfl, (claim_C4_theorem.2.2 cfgP (Plain.disconnect sPlainOpen) 0 rfl).1⟩

/-- Claim C5 counterexample: in ws-client.ts, `disconnect()` during
connection establishment does not close the still-CONNECTING socket and
leaves its handlers attached, so its open event still emits CONNECTED after
`disconnect()` returned: the trace after connect-disconnect is exactly
[CONNECTING], and the stale open event then appends CONNECTED. -/
theorem claim_C5_counterexample :
    (Plain.run cfgP (Plain.init none) [.connect, .disconnect]).statusTrace
      = [ConnectionStatus.CONNECTING]
    ∧ (Plain.run cfgP (Plain.init none) [.connect, .disconnect, .openEv 0]).statusTrace
      = [ConnectionStatus.CONNECTING, ConnectionStatus.CONNECTED] :=
  ⟨rfl, rfl⟩

/-- Claim C5 (amended): in the liveness-monitor variant the claim holds:
after `disconnect()` every status the owner can still observe — under any
events other than a fresh owner-initiated connection attempt, including any
timer that was pending before the call — is DISCONNECTED; CONNECTING and
CONNECTED never appear again.  In ws-client.ts a socket still CONNECTING at
disconnect time is left attached and its open event still emits CONNECTED
(see the counterexample). -/
theorem claim_C5_theorem (c : Live.Cfg) (ar : Option Bool) (evs post : List Live.Ev)
    (hpost : ∀ e ∈ post, Live.Ev.isConnectCall e = false) :
    ∀ x ∈ (Live.run c (Live.disconnect (Live.run c (Live.init ar) evs)) post).statusTrace.drop
        (Live.disconnect (Live.run c (Live.init ar) evs)).statusTrace.length,
      x = ConnectionStatus.DISCONNECTED := by
  have hq : Live.Quiet (Live.disconnect (Live.run c (Live.init ar) evs)) :=
    Live.quiet_disconnect _ (Live.invRec_run c _ evs (Live.invRec_init ar))
  obtain ⟨_, l, hl, hall⟩ := Live.quiet_run c _ post hq hpost
  intro x hx
  rw [hl, List.drop_left] at hx
  exact hall x hx

/-- Witness for C5: concrete post-disconnect events (a pending-timer
firing, time passing, a stale close, a stray message) observe no
CONNECTING/CONNECTED. -/
theorem claim_C5_witness :
    (∀ e ∈ ([Live.Ev.fireRec 0, Live.Ev.elapse 3000, Live.Ev.closeEv,
        Live.Ev.msgEv "x"] : List Live.Ev), Live.Ev.isConnectCall e = false)
    ∧ ∀ x ∈ (Live.run cfgL
          (Live.disconnect (Live.run cfgL (Live.init none)
            [Live.Ev.connect, Live.Ev.openEv]))
          [Live.Ev.fireRec 0, Live.Ev.elapse 3000, Live.Ev.closeEv,
            Live.Ev.msgEv "x"]).statusTrace.drop
        (Live.disconnect (Live.run cfgL (Live.init none)
          [Live.Ev.connect, Live.Ev.openEv])).statusTrace.length,
      x = ConnectionStatus.DISCONNECTED :=
  ⟨by decide,
   claim_C5_theorem cfgL none [Live.Ev.connect, Live.Ev.openEv] _ (by decide)⟩

/-- Prefix of the C1 trace up to the pong: connect, open, ping at t=5000
(pong deadline 15000), ping at t=10000 (pong deadline 20000), pong received
at t=10000 — within the timeout window of both pings. -/
def c1evs7 : List Live.Ev :=
  [.connect, .openEv, .elapse 5000, .firePing, .elapse 5000, .firePing, .msgEv "pong"]

/-- The C1 trace extended by time passing to t=15000 and the orphaned
pong-timeout firing. -/
def c1evs9 : List Live.Ev := c1evs7 ++ [.elapse 5000, .firePong 1]

/-- Claim C1 counterexample: with the default 5000 ms ping interval and the
10000 ms pong window, a second ping fires while the first is still
unanswered and OVERWRITES the pong-timeout handle; the pong then received
at t=10000 — inside the window of every ping sent — cancels only the
second timeout, the first stays pending (third conjunct) and its firing
forcibly closes the socket (last two conjuncts), contradicting "every
pending liveness-timeout callback is cancelled (so no forced
close/terminate occurs from that ping cycle)". -/
theorem claim_C1_counterexample :
    (Live.run cfgL (Live.init none) c1evs7).sent = ["ping", "ping"]
    ∧ (Live.run cfgL (Live.init none) c1evs7).now = 10000
    ∧ (Live.run cfgL (Live.init none) c1evs7).pendingPong = [(1, 15000)]
    ∧ (Live.run cfgL (Live.init none) c1evs9).forcedCloses = 1
    ∧ (Live.run cfgL (Live.init none) c1evs9).ws = some ⟨Ready.CLOSING⟩ :=
  ⟨rfl, rfl, rfl, rfl, rfl⟩

/-- Claim C1 (amended): a pong cancels exactly the pong-timeout the handle
field refers to — the most recently armed one (part a); when that is the
only pending pong-timeout, the pong leaves none pending, so no forced
close can come from that ping cycle (part b); each ping sent on an open
socket arms a pong-timeout whose deadline is 10000 ms later (part c); a
pong-timeout cannot fire before its deadline (part d); an uncancelled
pong-timeout, once fired, forcibly closes the socket and counts a forced
close (part e).  When ping cycles overlap (pong window 10000 ms > ping
interval), a timeout whose handle was overwritten stays pending and a
later pong cannot cancel it: see the counterexample. -/
theorem claim_C1_theorem :
    (∀ (c : Live.Cfg) (s : Live.State) (h : Nat), s.pongTimeout = some h →
        Live.handleMessage c "pong" s
          = { s with pendingPong := s.pendingPong.filter (fun e => e.1 != h)
                     pongTimeout := none })
    ∧ (∀ (c : Live.Cfg) (s : Live.State) (h dl : Nat), s.pongTimeout = some h →
        s.pendingPong = [(h, dl)] →
        (Live.handleMessage c "pong" s).pendingPong = [])
    ∧ (∀ (c : Live.Cfg) (s : Live.State) (t due : Nat), s.ws = some ⟨Ready.OPEN⟩ →
        s.pingTimer = some t → s.pingDue = some due → due ≤ s.now →
        (Live.step c s Live.Ev.firePing).sent = s.sent ++ ["ping"]
        ∧ (Live.step c s Live.Ev.firePing).pendingPong
            = s.pendingPong ++ [(s.nextId, s.now + 10000)]
        ∧ (Live.step c s Live.Ev.firePing).pongTimeout = some s.nextId)
    ∧ (∀ (c : Live.Cfg) (s : Live.State) (id dl : Nat),
        s.pendingPong.lookup id = some dl → s.now < dl →
        Live.step c s (Live.Ev.firePong id) = s)
    ∧ (∀ (c : Live.Cfg) (s : Live.State) (id dl : Nat),
        s.pendingPong.lookup id = some dl → dl ≤ s.now → s.ws = some ⟨Ready.OPEN⟩ →
        (Live.step c s (Live.Ev.firePong id)).ws = some ⟨Ready.CLOSING⟩
        ∧ (Live.step c s (Live.Ev.firePong id)).forcedCloses = s.forcedCloses + 1) := by
  refine ⟨?_, ?_, ?_, ?_, ?_⟩
  · intro c s h hp
    simp [Live.handleMessage, Live.clearPongTimeout, hp]
  · intro c s h dl hp hpp
    simp [Live.handleMessage, Live.clearPongTimeout, hp, hpp]
  · intro c s t due hw hpt hpd hdue
    refine ⟨?_, ?_, ?_⟩ <;>
      simp [Live.step, hpt, hpd, hdue, Live.firePingBody, hw]
  · intro c s id dl hl hlt
    simp [Live.step, hl, Nat.not_le.mpr hlt]
  · intro c s id dl hl hle hw
    constructor <;> simp [Live.step, hl, hle, Live.firePongBody, hw]

/-- Witness for C1 at concrete reachable states: the single-pending pong is
cancelled by the pong; the ping arms a 10000 ms deadline; the timeout
neither fires early nor survives its forced close. -/
theorem claim_C1_witness :
    (Live.run cfgL (Live.init none) [.connect, .openEv, .elapse 5000, .firePing]).pongTimeout
        = some 1
    ∧ (Live.run cfgL (Live.init none)
        [.connect, .openEv, .elapse 5000, .firePing]).pendingPong = [(1, 15000)]
    ∧ (Live.handleMessage cfgL "pong"
        (Live.run cfgL (Live.init none)
          [.connect, .openEv, .elapse 5000, .firePing])).pendingPong = []
    ∧ (Live.run cfgL (Live.init none) [.connect, .openEv, .elapse 5000]).pingDue = some 5000
    ∧ (Live.step cfgL (Live.run cfgL (Live.init none) [.connect, .openEv, .elapse 5000])
        Live.Ev.firePing).pendingPong = [(1, 15000)]
    ∧ Live.step cfgL (Live.run cfgL (Live.init none) [.connect, .openEv, .elapse 5000, .firePing])
        (Live.Ev.firePong 1)
        = Live.run cfgL (Live.init none) [.connect, .openEv, .elapse 5000, .firePing]
    ∧ (Live.step cfgL (Live.run cfgL (Live.init none)
          [.connect, .openEv, .elapse 5000, .firePing, .elapse 10000])
        (Live.Ev.firePong 1)).forcedCloses
        = (Live.run cfgL (Live.init none)
          [.connect, .openEv, .elapse 5000, .firePing, .elapse 10000]).forcedCloses + 1 :=
  ⟨rfl, rfl,
   claim_C1_theorem.2.1 cfgL _ 1 15000 rfl rfl,
   rfl,
   (claim_C1_theorem.2.2.1 cfgL _ 0 5000 rfl rfl rfl (by decide)).2.1,
   claim_C1_theorem.2.2.2.1 cfgL _ 1 15000 rfl (by decide),
   (claim_C1_theorem.2.2.2.2 cfgL
      (Live.run cfgL (Live.init none)
        [.connect, .openEv, .elapse 5000, .firePing, .elapse 10000])
      1 15000 rfl (by decide) rfl).2⟩

/-- The `\x7b"a":1\x7d` frame of the spec's example. -/
def aFrame : String := "\x7b\"a\":1\x7d"

/-- Claim C2 counterexample: in ws-client.ts, a received `\x7b"a":1\x7d`
frame — perfectly parseable JSON (first conjunct) arriving on an OPEN
socket (second conjunct) — is NOT delivered to the message callback and
reports no parse error either: it is silently dropped because it lacks the
substring "payload" (the handler leaves the state untouched). -/
theorem claim_C2_counterexample :
    parseDemo aFrame = some (Json.obj [("a", Json.num 1)])
    ∧ sPlainOpen.sockets[0]? = some Ready.OPEN
    ∧ Plain.step cfgP sPlainOpen (.msgEv 0 aFrame) = sPlainOpen
    ∧ (Plain.step cfgP sPlainOpen (.msgEv 0 aFrame)).delivered = []
    ∧ (Plain.step cfgP sPlainOpen (.msgEv 0 aFrame)).parseErrors = 0 :=
  ⟨rfl, rfl, rfl, rfl, rfl⟩

/-- Claim C2 (amended): in the liveness-monitor variant the claim holds as
stated: the literal pong token is never delivered; any other nonempty frame
that parses is delivered exactly once; a parse failure reports the error
and leaves the connection (and status) untouched.  In ws-client.ts a frame
is parsed and delivered only if it contains the substring "payload"; the
pong token is still never delivered (it lacks the substring), but
`\x7b"a":1\x7d` is silently dropped without being parsed (see the
counterexample). -/
theorem claim_C2_theorem :
    (∀ (c : Live.Cfg) (s : Live.State) (d : String) (j : Json),
        s.ws = some ⟨Ready.OPEN⟩ →
        ((Live.step c s (.msgEv "pong")).delivered = s.delivered)
        ∧ (d ≠ "" → d ≠ "pong" → c.parse d = some j →
            (Live.step c s (.msgEv d)).delivered = s.delivered ++ [j]
            ∧ (Live.step c s (.msgEv d)).parseErrors = s.parseErrors)
        ∧ (d ≠ "" → d ≠ "pong" → c.parse d = none →
            (Live.step c s (.msgEv d)).delivered = s.delivered
            ∧ (Live.step c s (.msgEv d)).parseErrors = s.parseErrors + 1
            ∧ (Live.step c s (.msgEv d)).ws = s.ws
            ∧ (Live.step c s (.msgEv d)).statusTrace = s.statusTrace))
    ∧ (∀ (c : Plain.Cfg) (s : Plain.State) (sid : Nat) (d : String) (j : Json),
        (strContains d "payload" = false → Plain.step c s (.msgEv sid d) = s)
        ∧ (s.sockets[sid]? = some Ready.OPEN → d ≠ "" →
            strContains d "payload" = true → c.parse d = some j →
            (Plain.step c s (.msgEv sid d)).delivered = s.delivered ++ [j])
        ∧ (s.sockets[sid]? = some Ready.OPEN → d ≠ "" →
            strContains d "payload" = true → c.parse d = none →
            (Plain.step c s (.msgEv sid d)).parseErrors = s.parseErrors + 1
            ∧ (Plain.step c s (.msgEv sid d)).delivered = s.delivered
            ∧ (Plain.step c s (.msgEv sid d)).sockets = s.sockets)) := by
  constructor
  · intro c s d j hw
    refine ⟨?_, ?_, ?_⟩
    · cases hp : s.pongTimeout <;>
        simp [Live.step, hw, Live.handleMessage, Live.clearPongTimeout, hp]
    · intro h0 h1 hp
      constructor <;> simp [Live.step, hw, Live.handleMessage, h0, h1, hp]
    · intro h0 h1 hp
      refine ⟨?_, ?_, ?_, ?_⟩ <;> simp [Live.step, hw, Live.handleMessage, h0, h1, hp]
  · intro c s sid d j
    refine ⟨?_, ?_, ?_⟩
    · intro hnp
      by_cases hop : s.sockets[sid]? = some Ready.OPEN
      · by_cases h0 : d = "" <;>
          simp [Plain.step, hop, Plain.onMessage, h0, hnp]
      · simp [Plain.step, hop]
    · intro hop h0 hyes hp
      simp [Plain.step, hop, Plain.onMessage, h0, hyes, hp]
    · intro hop h0 hyes hp
      refine ⟨?_, ?_, ?_⟩ <;> simp [Plain.step, hop, Plain.onMessage, h0, hyes, hp]

/-- Witness for C2 on concrete frames: pong consumed silently, a parseable
frame delivered once, a garbage frame counted as a parse error, and in the
plain variant a "payload"-bearing frame delivered once. -/
theorem claim_C2_witness :
    (Live.step cfgL sLiveOpen (.msgEv "pong")).delivered = []
    ∧ (Live.step cfgL sLiveOpen (.msgEv aFrame)).delivered
        = [Json.obj [("a", Json.num 1)]]
    ∧ (Live.step cfgL sLiveOpen (.msgEv "garbage")).parseErrors = 1
    ∧ Plain.step cfgP sPlainOpen (.msgEv 0 "pong") = sPlainOpen
    ∧ (Plain.step cfgP sPlainOpen (.msgEv 0 "\x7b\"payload\":1\x7d")).delivered
        = [Json.obj [("payload", Json.num 1)]] :=
  ⟨(claim_C2_theorem.1 cfgL sLiveOpen "pong" Json.null rfl).1,
   ((claim_C2_theorem.1 cfgL sLiveOpen aFrame (Json.obj [("a", Json.num 1)]) rfl).2.1
      (by decide) (by decide) rfl).1,
   (((claim_C2_theorem.1 cfgL sLiveOpen "garbage" Json.null rfl).2.2
      (by decide) (by decide) rfl).2.1),
   (claim_C2_theorem.2 cfgP sPlainOpen 0 "pong" Json.null).1 (by decide),
   (claim_C2_theorem.2 cfgP sPlainOpen 0 "\x7b\"payload\":1\x7d"
      (Json.obj [("payload", Json.num 1)])).2.1 rfl (by decide) (by decide) rfl⟩

/-- Claim C6 counterexample: a message that carries its own `action` field
is accepted by `subscribe`, but the object spread overwrites the injected
discriminator: the single sent frame's action is "evil", the injected value
"subscribe" appears nowhere in the frame. -/
theorem claim_C6_counterexample :
    envelope "subscribe" [("action", Json.str "evil")]
      = Json.obj [("action", Json.str "evil")]
    ∧ (Live.subscribe [("action", Json.str "evil")] sLiveOpen).sent
        = ["\x7b\"action\":\"evil\"\x7d"]
    ∧ strContains "\x7b\"action\":\"evil\"\x7d" "subscribe" = false := by
  refine ⟨rfl, ?_, by decide⟩
  have hws : sLiveOpen.ws = some ⟨Ready.OPEN⟩ := rfl
  have hsent : sLiveOpen.sent = [] := rfl
  simp [Live.subscribe, Live.sendSafe, hws, hsent, envelope, stringify, stringifyObj]

/-- Claim C6 (amended): for every message WITHOUT its own `action` field,
the claim holds in both variants: while the socket is open, exactly one
frame is sent, equal to the serialization of the object whose first field
is the injected `action` and whose remaining fields are the original ones,
unchanged and in order; concretely, `subscribe(\x7btopic:"X"\x7d)` sends
exactly the frame `\x7b"action":"subscribe","topic":"X"\x7d`.  A message
that carries its own `action` key keeps its fields but loses the injected
discriminator to the spread (see the counterexample). -/
theorem claim_C6_theorem :
    (∀ (act : String) (m : List (String × Json)), (∀ kv ∈ m, kv.1 ≠ "action") →
        envelope act m = Json.obj (("action", Json.str act) :: m))
    ∧ (∀ (m : List (String × Json)) (s : Live.State), (∀ kv ∈ m, kv.1 ≠ "action") →
        s.ws = some ⟨Ready.OPEN⟩ →
        (Live.subscribe m s).sent
          = s.sent ++ [stringify (Json.obj (("action", Json.str "subscribe") :: m))]
        ∧ (Live.unsubscribe m s).sent
          = s.sent ++ [stringify (Json.obj (("action", Json.str "unsubscribe") :: m))])
    ∧ (∀ (m : List (String × Json)) (s : Plain.State) (i : Nat),
        (∀ kv ∈ m, kv.1 ≠ "action") → s.cur = some i →
        s.sockets[i]? = some Ready.OPEN →
        (Plain.subscribe m s).sent
          = s.sent ++ [stringify (Json.obj (("action", Json.str "subscribe") :: m))]
        ∧ (Plain.unsubscribe m s).sent
          = s.sent ++ [stringify (Json.obj (("action", Json.str "unsubscribe") :: m))])
    ∧ (Live.subscribe [("topic", Json.str "X")] sLiveOpen).sent
        = ["\x7b\"action\":\"subscribe\",\"topic\":\"X\"\x7d"] := by
  refine ⟨envelope_of_no_action, ?_, ?_, ?_⟩
  · intro m s hm hw
    constructor <;>
      simp [Live.subscribe, Live.unsubscribe, Live.sendSafe, hw,
            envelope_of_no_action _ m hm]
  · intro m s i hm hc ho
    constructor <;>
      simp [Plain.subscribe, Plain.unsubscribe, hc, ho,
            envelope_of_no_action _ m hm]
  · have hws : sLiveOpen.ws = some ⟨Ready.OPEN⟩ := rfl
    have hsent : sLiveOpen.sent = [] := rfl
    have he := envelope_of_no_action "subscribe" [("topic", Json.str "X")] (by decide)
    simp only [Live.subscribe, Live.sendSafe, hws, hsent, he]
    simp [stringify, stringifyObj]

/-- Witness for C6 at concrete states and the concrete topic message. -/
theorem claim_C6_witness :
    envelope "subscribe" [("topic", Json.str "X")]
      = Json.obj [("action", Json.str "subscribe"), ("topic", Json.str "X")]
    ∧ (Plain.subscribe [("topic", Json.str "X")] sPlainOpen).sent
        = [stringify (Json.obj [("action", Json.str "subscribe"),
            ("topic", Json.str "X")])] :=
  ⟨claim_C6_theorem.1 "subscribe" [("topic", Json.str "X")] (by decide),
   (claim_C6_theorem.2.2.1 [("topic", Json.str "X")] sPlainOpen 0
      (by decide) rfl rfl).1⟩

end WsSpec
